import Mathlib

/-!
Verification development for the manifest-selector logic of
`src/app/scripts/modules/kubernetes/src/v2/manifest/selector/ManifestSelector.tsx`.

JavaScript values that may be `null` or `undefined` are modelled as
`Option String` (`none` stands for both `null` and `undefined`; the source
only distinguishes them through truthiness tests and `== null`, which treat
them alike on every path relevant here).
-/

/-- Selector mode, from `IManifestSelector.ts`: `Static` or `Dynamic`. -/
inductive SelectorMode where
  | Static
  | Dynamic
deriving DecidableEq, Repr

/-- A JavaScript string variable that may also be null or undefined. -/
abbrev JStr := Option String

/-- JavaScript truthiness of a nullable string: null, undefined and the
empty string are falsy, every other string is truthy. -/
def jsTruthy : JStr → Bool
  | none => false
  | some s => s != ""

/-- The Selector record (`IManifestSelector`): `mode`, `manifestName`,
`kind`, `account`, `location` (namespace), `cluster`, `criteria`. -/
structure IManifestSelector where
  mode : Option SelectorMode
  manifestName : JStr
  kind : JStr
  account : JStr
  location : JStr
  cluster : JStr
  criteria : JStr
deriving DecidableEq, Repr

/-- JavaScript `String.prototype.split(' ')` on the character list of a
string: splits at every occurrence of the space character, keeping empty
segments, and always returns at least one segment (`"".split(' ')` is
`[""]`). -/
def splitSpace : List Char → List (List Char)
  | [] => [[]]
  | c :: rest =>
    if c == ' ' then [] :: splitSpace rest
    else
      match splitSpace rest with
      | [] => [[c]]
      | t :: ts => (c :: t) :: ts

/-- JavaScript `s.split(' ')` as a function on Lean strings. -/
def jsSplit (s : String) : List String :=
  (splitSpace s.data).map String.mk

/-- Result object of `parseSpinnakerName`: the `kind` and `name`
destructured from the split (either is undefined when the split array is
too short). -/
structure ParsedName where
  kind : JStr
  name : JStr
deriving DecidableEq, Repr

/-- Embeds `parseSpinnakerName` (ManifestSelector.tsx lines 49-52):
`const [kind, name] = (spinnakerName || '').split(' ')`. -/
def parseSpinnakerName (spinnakerName : JStr) : ParsedName :=
  let parts := jsSplit (spinnakerName.getD "")
  ⟨parts[0]?, parts[1]?⟩

/-- JavaScript `s.includes(sub)`: substring containment. -/
def jsIncludes (s sub : String) : Bool :=
  s.data.tails.any (fun t => sub.data.isPrefixOf t)

/-- Embeds `ManifestSelector.isExpression` (line 224):
`(value = '') => value.includes('${')`. The default parameter applies to
an undefined argument; callers below pass the current string value (for an
absent `location` the `getD ""` mirrors the undefined/default case). -/
def isExpression (value : String) : Bool :=
  jsIncludes value "$\x7b"

/-- Embeds `StaticManifestSelectorHandler.handleKindChange` (lines 68-72):
re-packs `manifestName` from the given kind and the name parsed out of the
current `manifestName`:
`selector.manifestName = kind ? (name ? kind + ' ' + name : kind) : name`. -/
def staticHandleKindChange (sel : IManifestSelector) (kind : JStr) : IManifestSelector :=
  let name := (parseSpinnakerName sel.manifestName).name
  { sel with
      manifestName :=
        if jsTruthy kind then
          if jsTruthy name then some (kind.getD "" ++ " " ++ name.getD "") else kind
        else name }

/-- Embeds `StaticManifestSelectorHandler.handleModeChange` (lines 59-66):
packs the current `kind` into `manifestName` via `handleKindChange`, then
nulls `kind`, `criteria` and `cluster` (the trailing
`setStateAndUpdateStage` publishes the mutated selector). -/
def staticHandleModeChange (sel : IManifestSelector) : IManifestSelector :=
  let s := staticHandleKindChange sel sel.kind
  { s with kind := none, criteria := none, cluster := none }

/-- Embeds `DynamicManifestSelectorHandler.handleModeChange` (lines 82-88):
`selector.kind = parseSpinnakerName(selector.manifestName).kind;
selector.manifestName = null`. -/
def dynamicHandleModeChange (sel : IManifestSelector) : IManifestSelector :=
  { sel with
      kind := (parseSpinnakerName sel.manifestName).kind
      manifestName := none }

/-- Embeds `DynamicManifestSelectorHandler.handleKindChange` (lines 90-92):
`this.component.state.selector.kind = kind`. -/
def dynamicHandleKindChange (sel : IManifestSelector) (kind : JStr) : IManifestSelector :=
  { sel with kind := kind }

/-- The mode used for dispatch: `this.state.selector.mode || SelectorMode.Static`
(`modeDelegate`, lines 252-253). The linear scan over the two handlers by
`handles(mode)` is equivalent to this match. -/
def effectiveMode (sel : IManifestSelector) : SelectorMode :=
  sel.mode.getD SelectorMode.Static

/-- Dispatch of `handleModeChange` through `modeDelegate()`. -/
def handleModeChangeOf (sel : IManifestSelector) : IManifestSelector :=
  match effectiveMode sel with
  | SelectorMode.Static => staticHandleModeChange sel
  | SelectorMode.Dynamic => dynamicHandleModeChange sel

/-- Embeds `setStateAndUpdateStage` (lines 121-126) restricted to its
observable owner-notification effect: `props.onChange` is invoked exactly
when the partial state being set contains a `selector` key; the returned
list holds the payloads passed to `onChange`. -/
def setStateAndUpdateStage (selectorInState : Option IManifestSelector) : List IManifestSelector :=
  match selectorInState with
  | some sel => [sel]
  | none => []

/-- Embeds `ManifestSelector.handleNamespaceChange` (lines 202-211):
stores the option's value (or null when the option or its value is falsy)
into `location`, pushes a search triple, and publishes the selector. The
second component is the list of `onChange` payloads. -/
def handleNamespaceChange (sel : IManifestSelector) (selectedNamespace : JStr) :
    IManifestSelector × List IManifestSelector :=
  let s := { sel with location := if jsTruthy selectedNamespace then selectedNamespace else none }
  (s, setStateAndUpdateStage (some s))

/-- Embeds `ManifestSelector.handleNameChange` (lines 218-222): re-packs
`manifestName` as `kind + ' ' + selectedName` when the parsed kind is
truthy, else `' ' + selectedName`, and publishes the selector. -/
def handleNameChange (sel : IManifestSelector) (selectedName : String) :
    IManifestSelector × List IManifestSelector :=
  let kind := (parseSpinnakerName sel.manifestName).kind
  let s := { sel with
      manifestName :=
        if jsTruthy kind then some (kind.getD "" ++ " " ++ selectedName)
        else some (" " ++ selectedName) }
  (s, setStateAndUpdateStage (some s))

/-- Embeds `ManifestSelector.handleClusterChange` (lines 242-245). -/
def handleClusterChange (sel : IManifestSelector) (clusterName : JStr) :
    IManifestSelector × List IManifestSelector :=
  let s := { sel with cluster := clusterName }
  (s, setStateAndUpdateStage (some s))

/-- Embeds `ManifestSelector.handleCriteriaChange` (lines 247-250). -/
def handleCriteriaChange (sel : IManifestSelector) (criteria : JStr) :
    IManifestSelector × List IManifestSelector :=
  let s := { sel with criteria := criteria }
  (s, setStateAndUpdateStage (some s))

/-- Embeds `ManifestSelector.handleKindChange` (lines 213-216): delegates
to the active mode's `handleKindChange` and pushes a search triple; neither
step calls `setStateAndUpdateStage`, so no `onChange` payload is produced. -/
def handleKindChange (sel : IManifestSelector) (kind : JStr) :
    IManifestSelector × List IManifestSelector :=
  let s :=
    match effectiveMode sel with
    | SelectorMode.Static => staticHandleKindChange sel kind
    | SelectorMode.Dynamic => dynamicHandleKindChange sel kind
  (s, [])

/-- Embeds `ManifestSelector.handleModeSelect` (lines 235-240): sets
`selector.mode`, publishes the selector, then (in the setState callback)
runs the new mode's `handleModeChange`, which publishes again. -/
def handleModeSelect (sel : IManifestSelector) (mode : SelectorMode) :
    IManifestSelector × List IManifestSelector :=
  let s1 := { sel with mode := some mode }
  let s2 := handleModeChangeOf s1
  (s2, setStateAndUpdateStage (some s1) ++ setStateAndUpdateStage (some s2))

/-- An account record as consumed here (`IAccountDetails`): its name, its
namespaces (the source guards a null list with `|| []`, so a plain list
suffices), and `Object.entries` of its `spinnakerKindMap` in entry order. -/
structure IAccountDetails where
  name : String
  namespaces : List String
  spinnakerKindMap : List (String × String)
deriving DecidableEq, Repr

/-- The `namespaces.every(ns => ns !== this.state.selector.location)` test
of `handleAccountChange` (strict inequality is true when `location` is
null or undefined). -/
def namespacesMissLocation (namespaces : List String) (loc : JStr) : Bool :=
  namespaces.all fun ns =>
    match loc with
    | some l => ns != l
    | none => true

/-- Result of `handleAccountChange`: the (possibly) mutated selector, the
new `namespaces`/`kinds` state (`none` when the early return left them
untouched), and the `onChange` payloads. -/
structure AccountChangeResult where
  selector : IManifestSelector
  namespaces : Option (List String)
  kinds : Option (List String)
  onChangeCalls : List IManifestSelector
deriving Repr

/-- Embeds `ManifestSelector.handleAccountChange` (lines 166-200): finds
the account's details (early return when absent), sorts its namespaces,
computes the kind list from `spinnakerKindMap` filtered by
`includeSpinnakerKinds` when that prop is a non-empty list, clears
`location` when it is neither a templated expression nor present in the
new namespace list, sets `account`, pushes a search triple and publishes
the selector. -/
def handleAccountChange (accounts : List IAccountDetails)
    (includeSpinnakerKinds : Option (List String)) (sel : IManifestSelector)
    (selectedAccount : String) : AccountChangeResult :=
  match accounts.find? (fun a => a.name == selectedAccount) with
  | none => ⟨sel, none, none, []⟩
  | some details =>
    let namespaces := details.namespaces.insertionSort (· ≤ ·)
    let kinds :=
      ((details.spinnakerKindMap.filter fun p =>
          match includeSpinnakerKinds with
          | some l => if l.isEmpty then true else l.contains p.2
          | none => true).map (·.1)).insertionSort (· ≤ ·)
    let location :=
      if !(isExpression (sel.location.getD "")) && namespacesMissLocation namespaces sel.location
      then none else sel.location
    let s := { sel with location := location, account := some selectedAccount }
    ⟨s, some namespaces, some kinds, [s]⟩

/-- A result object of the kind-search collaborator
(`ManifestKindSearchService.search`); only its `name` field is consumed,
and per the service contract it carries a full `"<kind> <name>"`
identifier. -/
structure IKindSearchResult where
  name : String
deriving DecidableEq, Repr

/-- Embeds `ManifestSelector.search` (lines 226-233), with the external
collaborator `ManifestKindSearchService.search` abstracted as the `lookup`
argument: an expression account short-circuits to `[]`; otherwise the
`name` fields of the lookup results are collected and sorted
(`results.map(result => result.name).sort()`). -/
def search (lookup : String → String → String → List IKindSearchResult)
    (kind ns account : String) : List String :=
  if isExpression account then []
  else ((lookup kind ns account).map (·.name)).insertionSort (· ≤ ·)

/-- Definition following the spec sentence for the search step, to be
compared with `search` above: "calls the external kind-search collaborator
with (kind, namespace, account) ... extracts and lexicographically sorts
the short names", the short name being the name portion of the
`"<kind> <name>"` identifier. -/
def searchSpecShortNames (lookup : String → String → String → List IKindSearchResult)
    (kind ns account : String) : List String :=
  if isExpression account then []
  else
    (((lookup kind ns account).map
      fun r => ((parseSpinnakerName (some r.name)).name).getD "").insertionSort (· ≤ ·))

/-- State of the async search pipeline wired in `componentDidMount`
(lines 128-141): `nextGen` numbers submitted triples, `active` is the
generation of the most recently submitted triple (the only inner
observable `switchMap` keeps subscribed), and `loading`/`resources` are
the component-state fields the pipeline writes. -/
structure SearchPipeState where
  nextGen : Nat
  active : Option Nat
  loading : Bool
  resources : List String
deriving DecidableEq, Repr

/-- Events of the search pipeline: submitting a `(kind, namespace,
account)` triple on `search$`, and the resolution of the lookup started
for the triple of generation `gen`. -/
inductive SearchEvent where
  | submit (kind ns account : String)
  | resolve (gen : Nat) (result : List String)

/-- One step of the pipeline of `componentDidMount`: a submitted triple
sets `loading` (the `do` stage) and becomes the sole active inner
observable of `switchMap`, unsubscribing the previous in-flight lookup; a
resolution reaches the subscriber (setting `loading := false` and
`resources`) only if its generation is still the active one — a
superseded lookup's result is discarded by `switchMap` and leaves the
state untouched. -/
def stepSearch (st : SearchPipeState) : SearchEvent → SearchPipeState
  | SearchEvent.submit _ _ _ =>
    { st with nextGen := st.nextGen + 1, active := some st.nextGen, loading := true }
  | SearchEvent.resolve g r =>
    if st.active = some g then { st with loading := false, resources := r } else st

/-- Embeds the account-defaulting step of `ManifestSelector.loadAccounts`
(lines 152-156): when `selector.account` is falsy and the fetched account
list is non-empty, the account becomes the configured default Kubernetes
account (`SETTINGS.providers.kubernetes.defaults.account`, here the
`defaultAccount` argument) if some fetched account bears that name, else
the first fetched account's name. The surrounding service fetch, setState
and follow-up calls are outside this definition. -/
def loadAccountsSetDefault (accounts : List IAccountDetails) (defaultAccount : String)
    (sel : IManifestSelector) : IManifestSelector :=
  if jsTruthy sel.account then sel
  else
    match accounts with
    | [] => sel
    | a :: rest =>
      { sel with
          account :=
            some (if (a :: rest).any (fun e => e.name == defaultAccount)
                  then defaultAccount else a.name) }

/-- A selector with every field null, as a fresh stage configuration has. -/
def blankSelector : IManifestSelector :=
  ⟨none, none, none, none, none, none, none⟩

/-- A sample selector in Dynamic mode (manifestName cleared, kind set). -/
def dynSampleSelector : IManifestSelector :=
  ⟨some SelectorMode.Dynamic, none, some "ReplicaSet", some "my-account", some "default", none, none⟩

/-- A sample selector in Static mode (kind and name packed in manifestName). -/
def staticSampleSelector : IManifestSelector :=
  ⟨some SelectorMode.Static, some "Deployment my-app", none, some "my-account", some "default", none, none⟩

theorem splitSpace_ne_nil (l : List Char) : splitSpace l ≠ [] := by
  induction l with
  | nil => simp [splitSpace]
  | cons c rest ih =>
    by_cases h : (c == ' ') = true
    · simp [splitSpace, h]
    · simp only [splitSpace, h, if_false, Bool.false_eq_true]
      cases hm : splitSpace rest with
      | nil => simp
      | cons t ts => simp

theorem splitSpace_head (l : List Char) :
    (splitSpace l)[0]? = some (l.takeWhile (fun c => c != ' ')) := by
  induction l with
  | nil => rfl
  | cons c rest ih =>
    by_cases h : (c == ' ') = true
    · have hc : c = ' ' := by simpa using h
      simp [splitSpace, h, List.takeWhile_cons, hc]
    · cases hm : splitSpace rest with
      | nil => exact absurd hm (splitSpace_ne_nil rest)
      | cons t ts =>
        have hc : c ≠ ' ' := by simpa using h
        have ht : t = rest.takeWhile (fun c => c != ' ') := by
          have := ih
          rw [hm] at this
          simpa using this
        simp [splitSpace, h, hm, List.takeWhile_cons, ht, hc]

theorem splitSpace_second (l : List Char) :
    (splitSpace l)[1]? =
      (match l.dropWhile (fun c => c != ' ') with
       | [] => none
       | _ :: rest => some (rest.takeWhile (fun c => c != ' '))) := by
  induction l with
  | nil => rfl
  | cons c rest ih =>
    by_cases h : (c == ' ') = true
    · have hc : c = ' ' := by simpa using h
      simp [splitSpace, h, List.dropWhile_cons, hc, splitSpace_head rest]
    · cases hm : splitSpace rest with
      | nil => exact absurd hm (splitSpace_ne_nil rest)
      | cons t ts =>
        have hc : c ≠ ' ' := by simpa using h
        have hts : ts[0]? =
            (match rest.dropWhile (fun c => c != ' ') with
             | [] => none
             | _ :: r => some (r.takeWhile (fun c => c != ' '))) := by
          have := ih
          rw [hm] at this
          simpa using this
        simp [splitSpace, h, hm, List.dropWhile_cons, hts, hc]

theorem parseSpinnakerName_none : parseSpinnakerName none = ⟨some "", none⟩ := rfl

theorem parseSpinnakerName_kind (s : String) :
    (parseSpinnakerName (some s)).kind =
      some (String.mk (s.data.takeWhile (fun c => c != ' '))) := by
  simp only [parseSpinnakerName, jsSplit, Option.getD_some]
  rw [List.getElem?_map, splitSpace_head]
  rfl

theorem parseSpinnakerName_name (s : String) :
    (parseSpinnakerName (some s)).name =
      (match s.data.dropWhile (fun c => c != ' ') with
       | [] => none
       | _ :: rest => some (String.mk (rest.takeWhile (fun c => c != ' ')))) := by
  simp only [parseSpinnakerName, jsSplit, Option.getD_some]
  rw [List.getElem?_map, splitSpace_second]
  cases s.data.dropWhile (fun c => c != ' ') <;> rfl

/-- C1: for a Selector in Dynamic mode (so with `manifestName` cleared per
the mode invariant) whose `kind` is a non-empty string, the Static
handler's `handleModeChange` nulls `kind`, `criteria` and `cluster` and
sets `manifestName` to exactly the prior `kind` string. -/
theorem staticModeActivation_from_dynamic (sel : IManifestSelector) (k : String)
    (_hmode : sel.mode = some SelectorMode.Dynamic)
    (hmn : sel.manifestName = none)
    (hkind : sel.kind = some k) (hk : k ≠ "") :
    (staticHandleModeChange sel).kind = none ∧
    (staticHandleModeChange sel).criteria = none ∧
    (staticHandleModeChange sel).cluster = none ∧
    (staticHandleModeChange sel).manifestName = some k := by
  simp [staticHandleModeChange, staticHandleKindChange, hmn, hkind,
    parseSpinnakerName_none, jsTruthy, hk]

/-- Witness for C1 at a concrete Dynamic-mode selector with kind
`ReplicaSet`. -/
theorem staticModeActivation_from_dynamic_witness :
    (staticHandleModeChange dynSampleSelector).kind = none ∧
    (staticHandleModeChange dynSampleSelector).criteria = none ∧
    (staticHandleModeChange dynSampleSelector).cluster = none ∧
    (staticHandleModeChange dynSampleSelector).manifestName = some "ReplicaSet" :=
  staticModeActivation_from_dynamic dynSampleSelector "ReplicaSet" rfl rfl rfl (by decide)

/-- C2: for a Selector in Static mode whose `manifestName` is a string,
the Dynamic handler's `handleModeChange` nulls `manifestName` and sets
`kind` to the first space-separated token of the prior `manifestName`. -/
theorem dynamicModeActivation_from_static (sel : IManifestSelector) (s : String)
    (_hmode : sel.mode = some SelectorMode.Static)
    (hmn : sel.manifestName = some s) :
    (dynamicHandleModeChange sel).manifestName = none ∧
    (dynamicHandleModeChange sel).kind =
      some (String.mk (s.data.takeWhile (fun c => c != ' '))) := by
  refine ⟨rfl, ?_⟩
  simp [dynamicHandleModeChange, hmn, parseSpinnakerName_kind]

/-- Witness for C2 at a concrete Static-mode selector with manifestName
`Deployment my-app`. -/
theorem dynamicModeActivation_from_static_witness :
    (dynamicHandleModeChange staticSampleSelector).manifestName = none ∧
    (dynamicHandleModeChange staticSampleSelector).kind = some "Deployment" := by
  have h := dynamicModeActivation_from_static staticSampleSelector "Deployment my-app" rfl rfl
  exact ⟨h.1, h.2.trans (by decide)⟩

/-- C3: latest-wins in the search pipeline. Submitting triple T1 and then
T2 before T1's lookup resolves, T2's resolution sets `resources`/`loading`
and T1's later resolution is discarded: it leaves the state exactly as
T2's resolution left it. -/
theorem searchPipeline_latest_wins (st : SearchPipeState)
    (k1 n1 a1 k2 n2 a2 : String) (r1 r2 : List String) :
    (stepSearch (stepSearch (stepSearch st (SearchEvent.submit k1 n1 a1))
        (SearchEvent.submit k2 n2 a2)) (SearchEvent.resolve (st.nextGen + 1) r2)).resources = r2 ∧
    (stepSearch (stepSearch (stepSearch st (SearchEvent.submit k1 n1 a1))
        (SearchEvent.submit k2 n2 a2)) (SearchEvent.resolve (st.nextGen + 1) r2)).loading = false ∧
    stepSearch (stepSearch (stepSearch (stepSearch st (SearchEvent.submit k1 n1 a1))
        (SearchEvent.submit k2 n2 a2)) (SearchEvent.resolve (st.nextGen + 1) r2))
        (SearchEvent.resolve st.nextGen r1) =
      stepSearch (stepSearch (stepSearch st (SearchEvent.submit k1 n1 a1))
        (SearchEvent.submit k2 n2 a2)) (SearchEvent.resolve (st.nextGen + 1) r2) := by
  simp [stepSearch, Nat.succ_ne_self]

/-- C4 counterexample: packing `name = "foo"` with no kind yields
`" foo"`, but parsing `" foo"` yields `kind = ""` (the empty string), not
the undefined/null kind the claim states. -/
theorem packParse_leadingSpace_counterexample :
    ((handleNameChange blankSelector "foo").1).manifestName = some " foo" ∧
    (parseSpinnakerName (some " foo")).kind = some "" ∧
    (some "" : JStr) ≠ none := by
  exact ⟨by decide, by decide, by decide⟩

/-- C4 amended: packing `(kind = "Deployment", name = "foo")` gives
`"Deployment foo"`, which parses back to `("Deployment", "foo")`; packing
`name = "foo"` with an absent kind gives `" foo"`, which parses to
`kind = ""` (empty string, falsy like undefined) and `name = "foo"`, and
re-packing after that parse yields `" foo"` again — the round-trip is
exact at the string level, with the absent kind returning as `""`. -/
theorem packParse_roundTrip_amended :
    ((handleNameChange { blankSelector with manifestName := some "Deployment" } "foo").1).manifestName
      = some "Deployment foo" ∧
    parseSpinnakerName (some "Deployment foo") = ⟨some "Deployment", some "foo"⟩ ∧
    ((handleNameChange blankSelector "foo").1).manifestName = some " foo" ∧
    parseSpinnakerName (some " foo") = ⟨some "", some "foo"⟩ ∧
    ((handleNameChange ((handleNameChange blankSelector "foo").1) "foo").1).manifestName
      = some " foo" := by
  exact ⟨by decide, by decide, by decide, by decide, by decide⟩

/-- C5 counterexample: `parseSpinnakerName` does not split only on the
first space — parsing `"Deployment foo bar"` yields `name = "foo"`, not
the intact remainder `"foo bar"`; and a manifestName with no kind prefix
(`" foo"`) parses to `kind = ""`, not `kind` undefined. -/
theorem parse_dropsExtraTokens_counterexample :
    parseSpinnakerName (some "Deployment foo bar") = ⟨some "Deployment", some "foo"⟩ ∧
    (some "foo" : JStr) ≠ some "foo bar" ∧
    parseSpinnakerName (some " foo") = ⟨some "", some "foo"⟩ ∧
    (some "" : JStr) ≠ none := by
  exact ⟨by decide, by decide, by decide, by decide⟩

/-- C5 amended: parsing splits on every space and keeps the first two
segments: `kind` is the (possibly empty) prefix before the first space,
and `name` is undefined when there is no space, else the segment between
the first and second spaces — any text after a second space is dropped. -/
theorem parse_firstTwoTokens (s : String) :
    (parseSpinnakerName (some s)).kind =
      some (String.mk (s.data.takeWhile (fun c => c != ' '))) ∧
    (parseSpinnakerName (some s)).name =
      (match s.data.dropWhile (fun c => c != ' ') with
       | [] => none
       | _ :: rest => some (String.mk (rest.takeWhile (fun c => c != ' ')))) :=
  ⟨parseSpinnakerName_kind s, parseSpinnakerName_name s⟩

/-- C6: for any search triple whose account contains the template marker,
`search` returns the empty list whatever the collaborator would answer —
the universal quantification over `lookup` captures that the collaborator
is never consulted. -/
theorem search_expression_guard (lookup : String → String → String → List IKindSearchResult)
    (k ns a : String) (h : isExpression a = true) :
    search lookup k ns a = [] := by
  simp [search, h]

/-- Witness for C6 at the templated account of the spec's example. -/
theorem search_expression_guard_witness :
    isExpression "$\x7bmyAccount\x7d" = true ∧
    search (fun _ _ _ => [⟨"Deployment foo"⟩]) "Deployment" "default" "$\x7bmyAccount\x7d" = [] :=
  ⟨by decide,
   search_expression_guard (fun _ _ _ => [⟨"Deployment foo"⟩]) "Deployment" "default"
     "$\x7bmyAccount\x7d" (by decide)⟩

theorem namespacesMissLocation_iff (nss : List String) (l : String) :
    namespacesMissLocation nss (some l) = true ↔ l ∉ nss := by
  simp only [namespacesMissLocation, List.all_eq_true, bne_iff_ne]
  constructor
  · intro h hl
    exact (h l hl) rfl
  · intro h x hx hxl
    exact h (hxl ▸ hx)

/-- C7: when the selected account is found, a currently selected namespace
that is not a templated expression and is absent from the new account's
namespace list is cleared to null by `handleAccountChange`; a templated or
still-present namespace is left unchanged. -/
theorem accountChange_namespace_clearing (accounts : List IAccountDetails)
    (incl : Option (List String)) (sel : IManifestSelector) (acct : String)
    (details : IAccountDetails) (ns : String)
    (hfind : accounts.find? (fun a => a.name == acct) = some details)
    (hloc : sel.location = some ns) :
    ((isExpression ns = false ∧ ns ∉ details.namespaces) →
        (handleAccountChange accounts incl sel acct).selector.location = none) ∧
    ((isExpression ns = true ∨ ns ∈ details.namespaces) →
        (handleAccountChange accounts incl sel acct).selector.location = some ns) := by
  unfold handleAccountChange
  rw [hfind]
  simp only [hloc, Option.getD_some]
  set nss := details.namespaces.insertionSort (· ≤ ·) with hnss
  have hOK : ∀ x, x ∈ nss ↔ x ∈ details.namespaces := by
    intro x
    rw [hnss]
    exact List.mem_insertionSort _
  constructor
  · rintro ⟨hexp, hmem⟩
    have hmiss : namespacesMissLocation nss (some ns) = true :=
      (namespacesMissLocation_iff _ _).mpr (fun hin => hmem ((hOK ns).mp hin))
    simp [hexp, hmiss]
  · rintro (hexp | hmem)
    · simp [hexp]
    · have hmiss : namespacesMissLocation nss (some ns) = false := by
        rw [Bool.eq_false_iff]
        intro htrue
        exact ((namespacesMissLocation_iff _ _).mp htrue) ((hOK ns).mpr hmem)
      simp [hmiss]

/-- Witness for C7: the spec's example — namespaces `["ns-a", "ns-b"]`,
current namespace `"ns-c"`, which is cleared. -/
theorem accountChange_namespace_clearing_witness :
    (handleAccountChange [⟨"acct-b", ["ns-a", "ns-b"], []⟩] none
        { blankSelector with location := some "ns-c" } "acct-b").selector.location = none :=
  (accountChange_namespace_clearing [⟨"acct-b", ["ns-a", "ns-b"], []⟩] none
      { blankSelector with location := some "ns-c" } "acct-b"
      ⟨"acct-b", ["ns-a", "ns-b"], []⟩ "ns-c" (by decide) rfl).1 ⟨by decide, by decide⟩

/-- A concrete collaborator used in the C8 theorems: it answers with one
full `"<kind> <name>"` resource identifier. -/
def sampleLookup : String → String → String → List IKindSearchResult :=
  fun _ _ _ => [⟨"Deployment foo"⟩]

/-- C8 counterexample: `search` returns the sorted full `name` fields of
the collaborator's results — the full `"<kind> <name>"` identifiers — and
not the short names the claim states (those are only extracted later, when
rendering): on a collaborator answering `[{name: "Deployment foo"}]` it
returns `["Deployment foo"]`, while the claim's short-name reading gives
`["foo"]`. -/
theorem search_full_names_counterexample :
    search sampleLookup "Deployment" "default" "my-account" = ["Deployment foo"] ∧
    searchSpecShortNames sampleLookup "Deployment" "default" "my-account" = ["foo"] ∧
    (["Deployment foo"] : List String) ≠ ["foo"] := by
  exact ⟨by decide, by decide, by decide⟩

/-- C8 amended: for a non-expression account, `search` hands `(kind,
namespace, account)` to the collaborator and returns the `name` fields of
its results — the full resource identifiers — lexicographically sorted (a
sorted permutation of the mapped `name` fields). -/
theorem search_sorted_full_names (lookup : String → String → String → List IKindSearchResult)
    (k ns a : String) (h : isExpression a = false) :
    List.Sorted (· ≤ ·) (search lookup k ns a) ∧
    List.Perm (search lookup k ns a) ((lookup k ns a).map (·.name)) := by
  simp only [search, h, Bool.false_eq_true, if_false]
  exact ⟨List.sorted_insertionSort _ _, List.perm_insertionSort _ _⟩

/-- Witness for C8's amended statement at a concrete collaborator and
non-templated account. -/
theorem search_sorted_full_names_witness :
    List.Sorted (· ≤ ·) (search sampleLookup "Deployment" "default" "my-account") ∧
    List.Perm (search sampleLookup "Deployment" "default" "my-account")
      ((sampleLookup "Deployment" "default" "my-account").map (·.name)) :=
  search_sorted_full_names sampleLookup "Deployment" "default" "my-account" (by decide)

/-- C9 counterexample: a kind change mutates the shared Selector but
produces no `onChange` call — `ManifestSelector.handleKindChange` and both
handlers' `handleKindChange` never call `setStateAndUpdateStage`. -/
theorem kindChange_mutates_without_notify :
    (handleKindChange dynSampleSelector (some "Service")).1 ≠ dynSampleSelector ∧
    (handleKindChange dynSampleSelector (some "Service")).2 = [] := by
  exact ⟨by decide, rfl⟩

/-- C9 amended: namespace, name, cluster and criteria changes, mode
switches (which notify twice: once after setting `mode`, once after the
handler migrates the fields) and account changes that match a known
account each invoke `onChange` synchronously with the mutated Selector;
kind changes invoke it never. -/
theorem mutations_notify_owner :
    (∀ sel v, (handleNamespaceChange sel v).2 = [(handleNamespaceChange sel v).1]) ∧
    (∀ sel n, (handleNameChange sel n).2 = [(handleNameChange sel n).1]) ∧
    (∀ sel c, (handleClusterChange sel c).2 = [(handleClusterChange sel c).1]) ∧
    (∀ sel c, (handleCriteriaChange sel c).2 = [(handleCriteriaChange sel c).1]) ∧
    (∀ sel m, (handleModeSelect sel m).2 =
        [{ sel with mode := some m }, (handleModeSelect sel m).1]) ∧
    (∀ accounts incl sel acct details,
        accounts.find? (fun a => a.name == acct) = some details →
        (handleAccountChange accounts incl sel acct).onChangeCalls =
          [(handleAccountChange accounts incl sel acct).selector]) ∧
    (∀ sel k, (handleKindChange sel k).2 = []) := by
  refine ⟨fun _ _ => rfl, fun _ _ => rfl, fun _ _ => rfl, fun _ _ => rfl,
    fun _ _ => rfl, ?_, fun _ _ => rfl⟩
  intro accounts incl sel acct details hfind
  unfold handleAccountChange
  rw [hfind]

/-- Witness for C9's amended statement: a concrete account change notifies
the owner with the mutated selector. -/
theorem mutations_notify_owner_witness :
    (handleAccountChange [⟨"my-account", ["default"], [("deployment", "serverGroups")]⟩]
        none blankSelector "my-account").onChangeCalls =
      [(handleAccountChange [⟨"my-account", ["default"], [("deployment", "serverGroups")]⟩]
          none blankSelector "my-account").selector] :=
  mutations_notify_owner.2.2.2.2.2.1
    [⟨"my-account", ["default"], [("deployment", "serverGroups")]⟩] none blankSelector
    "my-account" ⟨"my-account", ["default"], [("deployment", "serverGroups")]⟩ (by decide)

/-- C10: with no account selected and a non-empty fetched account list,
`loadAccounts` selects the configured default Kubernetes account when its
name occurs in the list, else the first fetched account. -/
theorem loadAccounts_defaults_account (accounts : List IAccountDetails) (d : String)
    (sel : IManifestSelector) (a : IAccountDetails) (rest : List IAccountDetails)
    (hacc : jsTruthy sel.account = false) (hlist : accounts = a :: rest) :
    (accounts.any (fun e => e.name == d) = true →
        (loadAccountsSetDefault accounts d sel).account = some d) ∧
    (accounts.any (fun e => e.name == d) = false →
        (loadAccountsSetDefault accounts d sel).account = some a.name) := by
  subst hlist
  constructor <;> intro h <;> simp [loadAccountsSetDefault, hacc, h]

/-- Witness for C10: the default account is present in the fetched list
and gets selected. -/
theorem loadAccounts_defaults_account_witness :
    (loadAccountsSetDefault [⟨"my-account", ["default"], []⟩] "my-account"
        blankSelector).account = some "my-account" :=
  (loadAccounts_defaults_account [⟨"my-account", ["default"], []⟩] "my-account"
      blankSelector ⟨"my-account", ["default"], []⟩ [] (by decide) rfl).1 (by decide)
